import Mathlib

/-!
Verification of the Financial Gearbox allocator
(`src/financial_gearbox.py`, class `FinancialGearbox`).

Modelling decisions:
* Python floats are modelled as exact rationals (`ℚ`); the source's decimal
  literals (`0.10`, `0.80`, ...) become the corresponding exact rationals.
* The class's per-instance state (`current_stage`, `income`, `allocations`)
  becomes an explicit `State` record threaded through each method.
* Python dicts with string keys become association lists in insertion order.
* A `raise ValueError(msg)` becomes an `Except.error (PyError.valueError msg)`
  result; `dict[key]` on a missing key becomes `PyError.keyError`.
-/

namespace FinancialGearbox

/-- A Python error raised by a method of `FinancialGearbox`. -/
inductive PyError where
  | valueError (msg : String)
  | keyError (key : String)
deriving Repr, DecidableEq

/-- The class attribute `GEAR_RATIOS`: the fixed mapping from life-stage name
to a (savings, expenses, investments) fraction triple, exactly as written in
`src/financial_gearbox.py` lines 17-22. -/
def GEAR_RATIOS : List (String × (ℚ × ℚ × ℚ)) :=
  [("Student", ((0.10 : ℚ), (0.80 : ℚ), (0.10 : ℚ))),
   ("First Job", ((0.30 : ℚ), (0.50 : ℚ), (0.20 : ℚ))),
   ("Family", ((0.25 : ℚ), (0.55 : ℚ), (0.20 : ℚ))),
   ("Retirement", ((0.50 : ℚ), (0.30 : ℚ), (0.20 : ℚ)))]

/-- The mutable per-instance state of a `FinancialGearbox` object:
fields `current_stage`, `income` and `allocations` set in `__init__`. -/
structure State where
  current_stage : Option String
  income : ℚ
  allocations : List (String × ℚ)
deriving Repr, DecidableEq

/-- `__init__` (lines 24-28): `current_stage = None`, `income = 0.0`,
`allocations = {}`. -/
def init : State :=
  { current_stage := none, income := 0, allocations := [] }

/-- `set_life_stage` (lines 30-43): sets `current_stage` and returns `True`
when `stage` is a key of `GEAR_RATIOS`; otherwise returns `False` and leaves
the state untouched. Returns the Python return value paired with the
post-call state. -/
def set_life_stage (s : State) (stage : String) : Bool × State :=
  if (GEAR_RATIOS.lookup stage).isSome then
    (true, { s with current_stage := some stage })
  else
    (false, s)

/-- The message of the `ValueError` raised at line 56 when no life stage is
set; the spec calls this failure `UnsetState`. -/
def UnsetState : PyError :=
  .valueError "Life stage must be set before calculating allocation"

/-- The message of the `ValueError` raised at line 59 on negative income;
the spec calls this failure `InvalidInput`. -/
def InvalidInput : PyError :=
  .valueError "Income must be non-negative"

/-- `calculate_allocation` (lines 45-70), in source order: raise if
`current_stage is None`; raise if `income < 0`; assign `self.income`;
look up and destructure the gear ratios (a `KeyError` if the stage is not a
key, which the public API never produces); build and store the allocation
dict; return it. The result is the Python return value (or raised error)
paired with the post-call state. -/
def calculate_allocation (s : State) (income : ℚ) :
    Except PyError (List (String × ℚ)) × State :=
  match s.current_stage with
  | none => (.error UnsetState, s)
  | some stage =>
    if income < 0 then
      (.error InvalidInput, s)
    else
      let s1 : State := { s with income := income }
      match GEAR_RATIOS.lookup stage with
      | none => (.error (.keyError stage), s1)
      | some ( savings_ratio, expenses_ratio, investments_ratio) =>
        let allocations : List (String × ℚ) :=
          [("Savings", income * savings_ratio),
           ("Expenses", income * expenses_ratio),
           ("Investments", income * investments_ratio)]
        (.ok allocations, { s1 with allocations := allocations })

/-- `display_allocation` (lines 72-86): when `self.allocations` is empty it
prints "No allocation calculated yet." and returns without displaying any
data; otherwise it prints the stage, income and the three allocation lines.
The printed text is modelled by the data it displays (`none` for the
no-allocation message); the state is returned unchanged, as the method only
reads fields. -/
def display_allocation (s : State) :
    Option (Option String × ℚ × List (String × ℚ)) × State :=
  if s.allocations = [] then
    (none, s)
  else
    (some (s.current_stage, s.income, s.allocations), s)

/-- States reachable from a freshly constructed instance through the public
mutating operations. -/
inductive Reachable : State → Prop where
  | base : Reachable init
  | step_set (s : State) (stage : String) (h : Reachable s) :
      Reachable (set_life_stage s stage).2
  | step_compute (s : State) (income : ℚ) (h : Reachable s) :
      Reachable (calculate_allocation s income).2

/-- Invariant: the selected stage, when set, is a key of `GEAR_RATIOS`. -/
def ValidStage (s : State) : Prop :=
  ∀ stage, s.current_stage = some stage → (GEAR_RATIOS.lookup stage).isSome

lemma validStage_init : ValidStage init := by
  intro stage h
  simp [init] at h

lemma validStage_set (s : State) (stage : String) (hs : ValidStage s) :
    ValidStage (set_life_stage s stage).2 := by
  intro st hst
  unfold set_life_stage at hst
  by_cases h : (GEAR_RATIOS.lookup stage).isSome
  · simp [h] at hst
    simpa [hst] using h
  · simp [h] at hst
    exact hs st hst

lemma validStage_compute (s : State) (income : ℚ) (hs : ValidStage s) :
    ValidStage (calculate_allocation s income).2 := by
  intro st hst
  unfold calculate_allocation at hst
  cases hcur : s.current_stage with
  | none =>
    simp [hcur] at hst
  | some stage =>
    by_cases hneg : income < 0
    · simp [hcur, hneg] at hst
      exact hst ▸ hs stage hcur
    · cases hlook : GEAR_RATIOS.lookup stage with
      | none =>
        simp [hcur, hneg, hlook] at hst
        exact hst ▸ hs stage hcur
      | some r =>
        obtain ⟨r1, r2, r3⟩ := r
        simp [hcur, hneg, hlook] at hst
        rw [hst] at hcur
        exact hs st hcur

lemma reachable_validStage (s : State) (h : Reachable s) : ValidStage s := by
  induction h with
  | base => exact validStage_init
  | step_set s stage _ ih => exact validStage_set s stage ih
  | step_compute s income _ ih => exact validStage_compute s income ih

/-- Exhaustive case analysis of a successful `GEAR_RATIOS` lookup. -/
lemma lookup_cases (stage : String) (r : ℚ × ℚ × ℚ)
    (h : GEAR_RATIOS.lookup stage = some r) :
    (stage = "Student" ∧ r = ((0.10 : ℚ), (0.80 : ℚ), (0.10 : ℚ))) ∨
    (stage = "First Job" ∧ r = ((0.30 : ℚ), (0.50 : ℚ), (0.20 : ℚ))) ∨
    (stage = "Family" ∧ r = ((0.25 : ℚ), (0.55 : ℚ), (0.20 : ℚ))) ∨
    (stage = "Retirement" ∧ r = ((0.50 : ℚ), (0.30 : ℚ), (0.20 : ℚ))) := by
  simp only [GEAR_RATIOS, List.lookup] at h
  repeat' split at h
  all_goals simp_all

/-- Every ratio triple in the table sums to `1`. -/
lemma lookup_sum_one (stage : String) (r1 r2 r3 : ℚ)
    (h : GEAR_RATIOS.lookup stage = some (r1, r2, r3)) :
    r1 + r2 + r3 = 1 := by
  rcases lookup_cases stage (r1, r2, r3) h with ⟨_, hr⟩ | ⟨_, hr⟩ | ⟨_, hr⟩ | ⟨_, hr⟩ <;>
    (obtain ⟨h1, h2, h3⟩ : _ ∧ _ ∧ _ := by simpa [Prod.ext_iff] using hr) <;>
    rw [h1, h2, h3] <;> norm_num

/-- `calculate_allocation` on an unset stage: the `ValueError` of line 56,
state untouched. -/
lemma calc_unset (s : State) (income : ℚ) (h : s.current_stage = none) :
    calculate_allocation s income = (.error UnsetState, s) := by
  unfold calculate_allocation
  rw [h]

/-- `calculate_allocation` on negative income with a stage set: the
`ValueError` of line 59, state untouched. -/
lemma calc_neg (s : State) (stage : String) (income : ℚ)
    (hcur : s.current_stage = some stage) (hneg : income < 0) :
    calculate_allocation s income = (.error InvalidInput, s) := by
  unfold calculate_allocation
  rw [hcur]
  simp [hneg]

/-- `calculate_allocation` on the happy path: returns the allocation dict and
overwrites the `income` and `allocations` fields. -/
lemma calc_ok (s : State) (stage : String) (r1 r2 r3 income : ℚ)
    (hcur : s.current_stage = some stage)
    (hlook : GEAR_RATIOS.lookup stage = some (r1, r2, r3))
    (hpos : 0 ≤ income) :
    calculate_allocation s income =
      (.ok [("Savings", income * r1), ("Expenses", income * r2),
            ("Investments", income * r3)],
       { s with
          income := income,
          allocations := [("Savings", income * r1), ("Expenses", income * r2),
                          ("Investments", income * r3)] }) := by
  unfold calculate_allocation
  rw [hcur]
  simp [not_lt.mpr hpos, hlook]

/-- The two distinct error values raised by `calculate_allocation`. -/
lemma unset_ne_invalid : UnsetState ≠ InvalidInput := by
  simp only [UnsetState, InvalidInput, ne_eq, PyError.valueError.injEq]
  decide

/-- C1: for every validly selected stage and every income ≥ 0,
`calculate_allocation income` returns a mapping whose keys are exactly
Savings, Expenses, Investments, and whose value for each category is
`income * ratio` with the ratio taken from the selected stage's triple. -/
theorem calc_allocation_formula (s : State) (stage : String)
    (r1 r2 r3 income : ℚ)
    (hcur : s.current_stage = some stage)
    (hlook : GEAR_RATIOS.lookup stage = some (r1, r2, r3))
    (hpos : 0 ≤ income) :
    (calculate_allocation s income).1 =
      .ok [("Savings", income * r1), ("Expenses", income * r2),
           ("Investments", income * r3)] ∧
    ∀ l, (calculate_allocation s income).1 = .ok l →
      l.map Prod.fst = ["Savings", "Expenses", "Investments"] := by
  rw [calc_ok s stage r1 r2 r3 income hcur hlook hpos]
  refine ⟨rfl, ?_⟩
  intro l hl
  injection hl with hl
  rw [← hl]
  rfl

/-- Witness for C1: the spec's concrete scenario, stage "Student" and
income 50000 gives Savings 5000, Expenses 40000, Investments 5000. -/
theorem calc_allocation_formula_witness :
    (calculate_allocation
        { current_stage := some "Student", income := 0, allocations := [] }
        50000).1 =
      .ok [("Savings", (5000 : ℚ)), ("Expenses", 40000),
           ("Investments", 5000)] := by
  have h := (calc_allocation_formula
      { current_stage := some "Student", income := 0, allocations := [] }
      "Student" 0.10 0.80 0.10 50000 rfl (by simp [GEAR_RATIOS])
      (by norm_num)).1
  rw [h]
  norm_num

/-- C2: for every stage in the ratio table and every income ≥ 0, the three
amounts returned by `calculate_allocation income` sum to exactly `income`
(the rational model is exact, hence within any floating-point tolerance). -/
theorem allocation_sums_to_income (s : State) (stage : String) (income : ℚ)
    (hcur : s.current_stage = some stage)
    (hvalid : (GEAR_RATIOS.lookup stage).isSome)
    (hpos : 0 ≤ income) :
    ∃ l, (calculate_allocation s income).1 = .ok l ∧
      (l.map Prod.snd).sum = income := by
  obtain ⟨r, hlook⟩ := Option.isSome_iff_exists.mp hvalid
  obtain ⟨r1, r2, r3⟩ := r
  refine ⟨[("Savings", income * r1), ("Expenses", income * r2),
           ("Investments", income * r3)], ?_, ?_⟩
  · rw [calc_ok s stage r1 r2 r3 income hcur hlook hpos]
  · have hsum := lookup_sum_one stage r1 r2 r3 hlook
    simp only [List.map_cons, List.map_nil, List.sum_cons, List.sum_nil]
    linear_combination income * hsum

/-- Witness for C2 at stage "Student", income 50000. -/
theorem allocation_sums_to_income_witness :
    ∃ l, (calculate_allocation
        { current_stage := some "Student", income := 0, allocations := [] }
        50000).1 = .ok l ∧ (l.map Prod.snd).sum = 50000 :=
  allocation_sums_to_income
    { current_stage := some "Student", income := 0, allocations := [] }
    "Student" 50000 rfl (by simp [GEAR_RATIOS]) (by norm_num)

/-- C5: for every income, calling `calculate_allocation` while
`current_stage` is still unset fails with the `UnsetState` error. -/
theorem unset_stage_fails (s : State) (income : ℚ)
    (h : s.current_stage = none) :
    (calculate_allocation s income).1 = .error UnsetState := by
  rw [calc_unset s income h]

/-- Witness for C5: a fresh instance fails on income 1. -/
theorem unset_stage_fails_witness :
    (calculate_allocation init 1).1 = .error UnsetState :=
  unset_stage_fails init 1 rfl

/-- C6: for every selected stage and every income < 0,
`calculate_allocation income` fails with the `InvalidInput` error,
regardless of the stage. -/
theorem negative_income_fails (s : State) (stage : String) (income : ℚ)
    (hcur : s.current_stage = some stage) (hneg : income < 0) :
    (calculate_allocation s income).1 = .error InvalidInput := by
  rw [calc_neg s stage income hcur hneg]

/-- Witness for C6: the spec's scenario income = -1 with stage "Student". -/
theorem negative_income_fails_witness :
    (calculate_allocation
        { current_stage := some "Student", income := 0, allocations := [] }
        (-1)).1 = .error InvalidInput :=
  negative_income_fails
    { current_stage := some "Student", income := 0, allocations := [] }
    "Student" (-1) rfl (by norm_num)

/-- C7: every ratio triple in `GEAR_RATIOS` has non-negative components
that sum to exactly 1. -/
theorem gear_ratios_nonneg_sum_one :
    ∀ p ∈ GEAR_RATIOS,
      0 ≤ p.2.1 ∧ 0 ≤ p.2.2.1 ∧ 0 ≤ p.2.2.2 ∧
      p.2.1 + p.2.2.1 + p.2.2.2 = 1 := by
  simp only [GEAR_RATIOS, List.mem_cons, List.not_mem_nil, or_false]
  rintro p (rfl | rfl | rfl | rfl) <;> norm_num

/-- Witness for C7 at the "Student" entry. -/
theorem gear_ratios_nonneg_sum_one_witness :
    0 ≤ (0.10 : ℚ) ∧ 0 ≤ (0.80 : ℚ) ∧ 0 ≤ (0.10 : ℚ) ∧
    (0.10 : ℚ) + 0.80 + 0.10 = 1 :=
  gear_ratios_nonneg_sum_one
    ("Student", ((0.10 : ℚ), (0.80 : ℚ), (0.10 : ℚ)))
    (by simp [GEAR_RATIOS])

/-- C9: reading the last allocation is a pure read: on a freshly constructed
instance it reports absent (the "No allocation calculated yet." branch), and
the read never modifies the state. -/
theorem display_fresh_absent_and_pure :
    (display_allocation init).1 = none ∧
    ∀ s, (display_allocation s).2 = s := by
  constructor
  · rfl
  · intro s
    unfold display_allocation
    split <;> rfl

/-- C10: `calculate_allocation` is atomic on error: when it fails because the
stage is unset or the income is negative, it does fail, and the entire state
(stage, last income, last allocations) is exactly what it was before. -/
theorem calc_atomic_on_error (s : State) (income : ℚ)
    (h : s.current_stage = none ∨ income < 0) :
    (∃ e, (calculate_allocation s income).1 = .error e) ∧
    (calculate_allocation s income).2 = s := by
  cases hcur : s.current_stage with
  | none =>
    rw [calc_unset s income hcur]
    exact ⟨⟨UnsetState, rfl⟩, rfl⟩
  | some stage =>
    have hneg : income < 0 := by
      rcases h with h | h
      · rw [hcur] at h
        simp at h
      · exact h
    rw [calc_neg s stage income hcur hneg]
    exact ⟨⟨InvalidInput, rfl⟩, rfl⟩

/-- Witness for C10: a fresh instance with income -5. -/
theorem calc_atomic_on_error_witness :
    (∃ e, (calculate_allocation init (-5)).1 = .error e) ∧
    (calculate_allocation init (-5)).2 = init :=
  calc_atomic_on_error init (-5) (Or.inl rfl)

/-- C3: on every state reachable through the public API, the two core
operations signal each failure mode by a single explicit result value:
`set_life_stage` reports an unknown stage by returning `false` (and only
then), and `calculate_allocation` produces exactly the `UnsetState` error
when no stage is set, exactly the `InvalidInput` error when a stage is set
and the income is negative, no other error ever, and a successful value in
all remaining cases. -/
theorem explicit_error_signaling (s : State) (h : Reachable s) :
    (∀ stage, (set_life_stage s stage).1 = false ↔
      GEAR_RATIOS.lookup stage = none) ∧
    (∀ income,
      ((calculate_allocation s income).1 = .error UnsetState ↔
        s.current_stage = none) ∧
      ((calculate_allocation s income).1 = .error InvalidInput ↔
        (s.current_stage ≠ none ∧ income < 0)) ∧
      (∀ e, (calculate_allocation s income).1 = .error e →
        e = UnsetState ∨ e = InvalidInput) ∧
      (s.current_stage ≠ none → ¬ income < 0 →
        ∃ l, (calculate_allocation s income).1 = .ok l)) := by
  have hvs := reachable_validStage s h
  constructor
  · intro stage
    unfold set_life_stage
    cases hl : GEAR_RATIOS.lookup stage <;> simp [hl]
  · intro income
    cases hcur : s.current_stage with
    | none =>
      rw [calc_unset s income hcur]
      refine ⟨by simp, ?_, ?_, ?_⟩
      · simp [unset_ne_invalid]
      · intro e he
        injection he with he
        exact Or.inl he.symm
      · intro hne
        exact absurd rfl hne
    | some stage =>
      by_cases hneg : income < 0
      · rw [calc_neg s stage income hcur hneg]
        refine ⟨?_, ?_, ?_, ?_⟩
        · simp [unset_ne_invalid.symm]
        · simp [hneg]
        · intro e he
          injection he with he
          exact Or.inr he.symm
        · intro _ hnneg
          exact absurd hneg hnneg
      · obtain ⟨r, hlook⟩ :=
          Option.isSome_iff_exists.mp (hvs stage hcur)
        obtain ⟨r1, r2, r3⟩ := r
        rw [calc_ok s stage r1 r2 r3 income hcur hlook (not_lt.mp hneg)]
        refine ⟨by simp, by simp [hneg], ?_, ?_⟩
        · intro e he
          exact absurd he (by simp)
        · intro _ _
          exact ⟨_, rfl⟩

/-- Witness for C3: on the initial state, computing with income 1 yields
exactly the `UnsetState` error. -/
theorem explicit_error_signaling_witness :
    (calculate_allocation init 1).1 = .error UnsetState :=
  (((explicit_error_signaling init Reachable.base).2 1).1).mpr rfl

/-- C4: `set_life_stage stage` returns `true` and sets the current stage
exactly when `stage` is a key of the ratio table; on an invalid name it
returns `false`, leaves the entire state unchanged, and a subsequent
`calculate_allocation` behaves exactly as it would have before the failed
call. -/
theorem set_life_stage_spec (s : State) (stage : String) :
    (((set_life_stage s stage).1 = true) ↔
      (GEAR_RATIOS.lookup stage).isSome) ∧
    ((set_life_stage s stage).1 = true →
      (set_life_stage s stage).2 = { s with current_stage := some stage }) ∧
    ((set_life_stage s stage).1 = false → (set_life_stage s stage).2 = s) ∧
    (∀ income, (set_life_stage s stage).1 = false →
      calculate_allocation (set_life_stage s stage).2 income =
        calculate_allocation s income) := by
  unfold set_life_stage
  by_cases h : (GEAR_RATIOS.lookup stage).isSome <;> simp [h]

/-- Witness for C4: the spec's scenario `selectStage("Unemployed")`: it
returns failure, the prior "Student" selection survives, and the subsequent
computation is unaffected. -/
theorem set_life_stage_spec_witness :
    (set_life_stage
        { current_stage := some "Student", income := 0, allocations := [] }
        "Unemployed").2 =
      { current_stage := some "Student", income := 0, allocations := [] } ∧
    calculate_allocation
        (set_life_stage
          { current_stage := some "Student", income := 0, allocations := [] }
          "Unemployed").2 50000 =
      calculate_allocation
        { current_stage := some "Student", income := 0, allocations := [] }
        50000 := by
  have h := set_life_stage_spec
    { current_stage := some "Student", income := 0, allocations := [] }
    "Unemployed"
  have hf : (set_life_stage
      { current_stage := some "Student", income := 0, allocations := [] }
      "Unemployed").1 = false := by
    simp [set_life_stage, GEAR_RATIOS]
  exact ⟨h.2.2.1 hf, h.2.2.2 50000 hf⟩

/-- C8: the ratio table is exactly the fixed four-stage enumeration of the
spec: its keys, in order, are Student, First Job, Family, Retirement, each
key looks up to the stated triple, and no other key is present. (In this
model — as in the source, where `GEAR_RATIOS` is a class attribute assigned
once and never written — the table is a top-level constant outside the
mutable `State`, so no operation can modify it.) -/
theorem gear_ratios_table_exact :
    GEAR_RATIOS.map Prod.fst =
      ["Student", "First Job", "Family", "Retirement"] ∧
    GEAR_RATIOS.lookup "Student" =
      some ((0.10 : ℚ), (0.80 : ℚ), (0.10 : ℚ)) ∧
    GEAR_RATIOS.lookup "First Job" =
      some ((0.30 : ℚ), (0.50 : ℚ), (0.20 : ℚ)) ∧
    GEAR_RATIOS.lookup "Family" =
      some ((0.25 : ℚ), (0.55 : ℚ), (0.20 : ℚ)) ∧
    GEAR_RATIOS.lookup "Retirement" =
      some ((0.50 : ℚ), (0.30 : ℚ), (0.20 : ℚ)) ∧
    (∀ stage r, GEAR_RATIOS.lookup stage = some r →
      stage = "Student" ∨ stage = "First Job" ∨ stage = "Family" ∨
        stage = "Retirement") := by
  refine ⟨rfl, rfl, rfl, rfl, rfl, ?_⟩
  intro stage r h
  rcases lookup_cases stage r h with
    ⟨h1, _⟩ | ⟨h1, _⟩ | ⟨h1, _⟩ | ⟨h1, _⟩ <;> simp [h1]

/-- Witness for C8: the key "Student" is recognised as one of the four
enumerated stages. -/
theorem gear_ratios_table_exact_witness :
    "Student" = "Student" ∨ "Student" = "First Job" ∨
    "Student" = "Family" ∨ "Student" = "Retirement" :=
  gear_ratios_table_exact.2.2.2.2.2 "Student"
    ((0.10 : ℚ), (0.80 : ℚ), (0.10 : ℚ)) (by simp [GEAR_RATIOS])

end FinancialGearbox
